import Mathlib

/-!
Verification development for the TornoTradeCraft data-access layer.

We shallowly embed the cache layer (`cache.py`, `utils/cache_crud.py`),
the Yahoo Finance provider's symbol loading
(`providers/yahoofinance_provider.py`) and the asset ingestion pipeline
(`utils/assets_crud.py`).  Tables (pandas DataFrames) are modelled as a
list of column labels plus a list of rows of cells; a cell is either a
null (Python `None` / `NaN`) or a string.  The parquet codec is modelled
as an executable serializer into a flat token stream together with its
decoder; byte values stored in the cache are such token streams.
Exceptions raised by external I/O (encoding, cache storage, file writes)
are modelled by an explicit outcome parameter, since the Python code
treats them as opaque `Exception`s.
-/

namespace TornoTradeCraft

/-- A cell of a tabular dataset: null (Python `None` / pandas `NaN`) or a
string value.  Asset tables in this codebase hold string data. -/
inductive Cell where
  | null : Cell
  | str (s : String) : Cell
deriving DecidableEq, Repr

/-- Python `str(x)` applied to a cell (only ever used on non-null cells in
the provider code). -/
def Cell.toStr : Cell → String
  | .null => "None"
  | .str s => s

/-- A pandas DataFrame: column labels (raw cell values, as pandas keeps
whatever the header row contained) and rows of cells. -/
structure DataFrame where
  columns : List Cell
  rows : List (List Cell)
deriving DecidableEq, Repr

/-- pandas `df.empty`: true when either axis has length 0. -/
def DataFrame.isEmpty (d : DataFrame) : Bool :=
  d.rows.isEmpty || d.columns.isEmpty

/-- One token of a serialized byte stream: a framing tag (a length or a
constructor marker) or a character of string payload.  This models the
opaque byte sequences produced by `df.to_parquet`. -/
inductive BByte where
  | tag (n : Nat)
  | sym (c : Char)
deriving DecidableEq, Repr

/-- Serialize one cell. -/
def encodeCell : Cell → List BByte
  | .null => [.tag 0]
  | .str s => .tag 1 :: .tag s.data.length :: s.data.map BByte.sym

/-- Serialize each element of a list and concatenate the results. -/
def encodeMany (enc : α → List BByte) (xs : List α) : List BByte :=
  xs.foldr (fun x acc => enc x ++ acc) []

/-- Serialize a list: a length tag followed by the serialized elements. -/
def encodeListWith (enc : α → List BByte) (xs : List α) : List BByte :=
  .tag xs.length :: encodeMany enc xs

/-- Serialize a DataFrame: columns, then rows. -/
def encodeDF (d : DataFrame) : List BByte :=
  encodeListWith encodeCell d.columns ++
    encodeListWith (encodeListWith encodeCell) d.rows

/-- Read `n` character tokens off the front of a stream. -/
def readChars : Nat → List BByte → Option (List Char × List BByte)
  | 0, l => some ([], l)
  | n + 1, .sym c :: l =>
    match readChars n l with
    | some (cs, rest) => some (c :: cs, rest)
    | none => none
  | _ + 1, _ => none

/-- Decode one cell off the front of a stream. -/
def decodeCell : List BByte → Option (Cell × List BByte)
  | .tag 0 :: l => some (.null, l)
  | .tag 1 :: .tag n :: l =>
    match readChars n l with
    | some (cs, rest) => some (.str ⟨cs⟩, rest)
    | none => none
  | _ => none

/-- Decode exactly `n` elements off the front of a stream. -/
def decodeCount (dec : List BByte → Option (α × List BByte)) :
    Nat → List BByte → Option (List α × List BByte)
  | 0, l => some ([], l)
  | n + 1, l =>
    match dec l with
    | none => none
    | some (x, l') =>
      match decodeCount dec n l' with
      | none => none
      | some (xs, l'') => some (x :: xs, l'')

/-- Decode a length-prefixed list off the front of a stream. -/
def decodeListWith (dec : List BByte → Option (α × List BByte))
    (l : List BByte) : Option (List α × List BByte) :=
  match l with
  | .tag n :: l' => decodeCount dec n l'
  | _ => none

/-- Decode a whole stream as a DataFrame; fails on malformed or trailing
input.  This models `pd.read_parquet` on an in-memory buffer. -/
def decodeDF (l : List BByte) : Option DataFrame :=
  match decodeListWith decodeCell l with
  | none => none
  | some (cols, l1) =>
    match decodeListWith (decodeListWith decodeCell) l1 with
    | none => none
    | some (rows, l2) => if l2.isEmpty then some ⟨cols, rows⟩ else none

theorem readChars_encode (cs : List Char) (rest : List BByte) :
    readChars cs.length (cs.map BByte.sym ++ rest) = some (cs, rest) := by
  induction cs with
  | nil => rfl
  | cons c cs ih => simp [readChars, ih]

theorem decodeCell_encode (c : Cell) (rest : List BByte) :
    decodeCell (encodeCell c ++ rest) = some (c, rest) := by
  cases c with
  | null => rfl
  | str s =>
    show decodeCell (.tag 1 :: .tag s.data.length :: (s.data.map BByte.sym ++ rest))
        = some (.str s, rest)
    simp only [decodeCell]
    rw [show readChars s.data.length (List.map BByte.sym s.data ++ rest)
        = some (s.data, rest) from readChars_encode s.data rest]

theorem decodeCount_encode {α : Type} {dec : List BByte → Option (α × List BByte)}
    {enc : α → List BByte}
    (h : ∀ x rest, dec (enc x ++ rest) = some (x, rest))
    (xs : List α) (rest : List BByte) :
    decodeCount dec xs.length (encodeMany enc xs ++ rest) = some (xs, rest) := by
  induction xs with
  | nil => rfl
  | cons x xs ih =>
    show decodeCount dec (xs.length + 1) ((enc x ++ encodeMany enc xs) ++ rest)
        = some (x :: xs, rest)
    rw [List.append_assoc]
    simp [decodeCount, h, ih]

theorem decodeListWith_encode {α : Type} {dec : List BByte → Option (α × List BByte)}
    {enc : α → List BByte}
    (h : ∀ x rest, dec (enc x ++ rest) = some (x, rest))
    (xs : List α) (rest : List BByte) :
    decodeListWith dec (encodeListWith enc xs ++ rest) = some (xs, rest) := by
  show decodeListWith dec (.tag xs.length :: (encodeMany enc xs ++ rest)) = some (xs, rest)
  simp [decodeListWith, decodeCount_encode h]

theorem decodeDF_encodeDF (d : DataFrame) : decodeDF (encodeDF d) = some d := by
  have h1 : decodeListWith decodeCell
      (encodeListWith encodeCell d.columns ++
        encodeListWith (encodeListWith encodeCell) d.rows)
      = some (d.columns, encodeListWith (encodeListWith encodeCell) d.rows) :=
    decodeListWith_encode decodeCell_encode d.columns _
  have h2 : decodeListWith (decodeListWith decodeCell)
      (encodeListWith (encodeListWith encodeCell) d.rows ++ [])
      = some (d.rows, []) :=
    decodeListWith_encode (decodeListWith_encode decodeCell_encode) d.rows []
  rw [List.append_nil] at h2
  simp [decodeDF, encodeDF, h1, h2]

theorem encodeDF_ne_nil (d : DataFrame) : encodeDF d ≠ [] := by
  simp [encodeDF, encodeListWith]

theorem decodeDF_nil : decodeDF [] = none := rfl

/-! ## Disk cache (`cache.py`) -/

/-- The settings the code passes to the `diskcache.Cache` constructor. -/
structure CacheSettings where
  shard_limit : Nat
  size_limit : Nat
  eviction_policy : String
  disk_cache : Bool
  timeout : Nat
deriving DecidableEq, Repr

/-- A constructed disk-cache instance: its directory and its settings. -/
structure CacheInstance where
  directory : String
  settings : CacheSettings
deriving DecidableEq, Repr

/-- The `CACHE_DIR` constant: the per-user cache directory
`user_cache_dir(APP_NAME, APP_AUTHOR) / "cache"`, abstracted as an opaque
path string (its OS-specific value is irrelevant to the claims). -/
def CACHE_DIR : String := "user_cache_dir/TornoTradeCraft/cache"

/-- The `Cache(...)` construction in `get_diskcache`, with the keyword
arguments exactly as the source passes them. -/
def newDiskCache (dir : String) : CacheInstance :=
  { directory := dir
    settings :=
      { shard_limit := 1000
        size_limit := 10 ^ 9
        eviction_policy := "least-recently-used"
        disk_cache := true
        timeout := 60 * 60 * 24 * 7 } }

/-- Module-level mutable state of `cache.py`: the `_cache` global, plus a
count of how many times the `Cache` constructor ran (to observe
re-initialization side effects). -/
structure CacheGlobalState where
  cache : Option CacheInstance
  initCount : Nat
deriving DecidableEq, Repr

/-- Function `get_diskcache()`: returns the cached instance, constructing it on
first call. -/
def get_diskcache (s : CacheGlobalState) : CacheGlobalState × CacheInstance :=
  match s.cache with
  | some c => (s, c)
  | none =>
    let c := newDiskCache CACHE_DIR
    ({ cache := some c, initCount := s.initCount + 1 }, c)

/-! ## Tabular cache adapter (`utils/cache_crud.py`) -/

/-- A value stored in the cache: either a byte sequence or some other
(non-bytes) Python object. -/
inductive CacheValue where
  | bytes (b : List BByte)
  | nonBytes
deriving DecidableEq, Repr

/-- The cache's key-value store (no eviction modelled: the claims are
about behaviour when no eviction or corruption intervenes). -/
def CacheMap := String → Option CacheValue

/-- An empty cache. -/
def CacheMap.empty : CacheMap := fun _ => none

/-- Python `cache.set(key, value)`. -/
def CacheMap.set (m : CacheMap) (k : String) (v : CacheValue) : CacheMap :=
  fun q => if q = k then some v else m q

/-- Python `cache.get(key)`, `None` on a miss. -/
def CacheMap.get (m : CacheMap) (k : String) : Option CacheValue := m k

/-- The argument passed for the `df` parameter: a real DataFrame or some
other object (`not isinstance(df, pd.DataFrame)`). -/
inductive DfArg where
  | frame (d : DataFrame)
  | notFrame
deriving DecidableEq, Repr

/-- Whether the external I/O inside a `try` block (parquet encoding plus
`cache.set`, or a parquet file write) runs to completion or raises. -/
inductive ExcOutcome where
  | ok
  | raised
deriving DecidableEq, Repr

/-- Function `save_df_to_cache(key, df)`.  Returns the resulting cache state; the
function itself never raises: invalid/empty inputs are logged no-ops and
exceptions from encoding/storage are caught and swallowed. -/
def save_df_to_cache (c : CacheMap) (key : String) (df : DfArg)
    (io : ExcOutcome) : CacheMap :=
  match df with
  | .notFrame => c
  | .frame d =>
    if d.isEmpty then c
    else
      match io with
      | .ok => c.set key (.bytes (encodeDF d))
      | .raised => c

/-- Function `load_df_from_cache(key)`: `None` on a miss, on falsy or non-bytes
stored values, and on decode failure; the decoded DataFrame otherwise. -/
def load_df_from_cache (c : CacheMap) (key : String) : Option DataFrame :=
  match c.get key with
  | some (.bytes b) => if b.isEmpty then none else decodeDF b
  | some .nonBytes => none
  | none => none

/-! ## Yahoo Finance provider (`providers/yahoofinance_provider.py`) -/

/-- The `SymbolInfo` dataclass (from `providers/providers.py`): a required symbol and
optional metadata fields (a null cell models Python `None`). -/
structure SymbolInfo where
  symbol : String
  name : Cell
  exchange : Cell
  category_name : Cell
  country : Cell
  currency : Cell
deriving DecidableEq, Repr

/-- Exceptions the symbol-loading path can raise. -/
inductive PyErr where
  | fileNotFound (path : String)
  | valueError (path : String) (missing : List Cell)
deriving DecidableEq, Repr

/-- The provider name property. -/
def providerName : String := "YahooFinance"

/-- The `ASSETS_PATH` constant: the package assets directory, abstracted as a path
string. -/
def ASSETS_PATH : String := "tornotradingcraft/assets"

/-- The path `assets_dir/provider_name.parquet`. -/
def yahooParquetPath : String := ASSETS_PATH ++ "/" ++ providerName ++ ".parquet"

/-- Python `dict(zip(columns, row)).get(key, None)`: the record lookup produced
by `df.to_dict(orient="records")` followed by `rec.get`; with duplicate
column labels the last pair wins, and a missing key yields `None`. -/
def recGet (cols : List Cell) (row : List Cell) (key : Cell) : Cell :=
  match ((cols.zip row).reverse.find? fun p => p.1 == key) with
  | some p => p.2
  | none => .null

/-- The body of the provider's per-record loop: skip the record when its
ticker is `None`, otherwise build a `SymbolInfo` from the record. -/
def rowToSymbolInfo (cols : List Cell) (row : List Cell) : Option SymbolInfo :=
  match recGet cols row (.str "Ticker") with
  | .null => none
  | t =>
    some
      { symbol := t.toStr
        name := recGet cols row (.str "Name")
        exchange := recGet cols row (.str "Exchange")
        category_name := recGet cols row (.str "Category Name")
        country := recGet cols row (.str "Country")
        currency := recGet cols row (.str "Currency") }

/-- The expression `required_cols - set(df.columns)` for `required_cols = {"Ticker"}`. -/
def requiredMissing (cols : List Cell) : List Cell :=
  if cols.contains (.str "Ticker") then [] else [.str "Ticker"]

/-- The tail of `get_supported_symbols` once the source DataFrame `df`
is in hand: validate the `Ticker` column, then map records to
`SymbolInfo` in row order. -/
def checkAndMap (df : DataFrame) (c : CacheMap) :
    Except PyErr (List SymbolInfo × CacheMap) :=
  let missing := requiredMissing df.columns
  if missing.isEmpty then
    .ok (df.rows.filterMap (rowToSymbolInfo df.columns), c)
  else .error (.valueError yahooParquetPath missing)

/-- Method `YahooFinanceProvider.get_supported_symbols`.  `asset` models the
packaged parquet file: `none` when `{assets_dir}/YahooFinance.parquet`
does not exist, `some df` for its decoded contents.  Returns the symbol
list together with the resulting cache state. -/
def get_supported_symbols (c : CacheMap) (asset : Option DataFrame)
    (io : ExcOutcome) : Except PyErr (List SymbolInfo × CacheMap) :=
  let key := providerName ++ ".parquet"
  match load_df_from_cache c key with
  | some df => checkAndMap df c
  | none =>
    match asset with
    | none => .error (.fileNotFound yahooParquetPath)
    | some df => checkAndMap df (save_df_to_cache c key (.frame df) io)

/-! ## Asset ingestion (`utils/assets_crud.py`) -/

/-- A filesystem: the set of existing directories and the parquet files
written, keyed by path. -/
structure FileSystem where
  dirs : List String
  files : List (String × DataFrame)
deriving DecidableEq, Repr

/-- Python `Path.mkdir(parents=True, exist_ok=True)`. -/
def mkdirp (fs : FileSystem) (dir : String) : FileSystem :=
  if dir ∈ fs.dirs then fs else { fs with dirs := dir :: fs.dirs }

/-- Write (or overwrite) a parquet file at `path`. -/
def writeParquet (fs : FileSystem) (path : String) (d : DataFrame) : FileSystem :=
  { fs with files := (path, d) :: fs.files.filter fun p => !(p.1 == path) }

/-- The default assets directory `package_root / "assets"`. -/
def defaultAssetsDir : String := "tornotradingcraft/assets"

/-- Function `convert_to_parquet_and_store(df, parquet_name, assets_dir)`: ensures
the assets directory exists, then validates `parquet_name`, then writes
the file (`io` models whether `df.to_parquet` raises, which the code
wraps in a RuntimeError).  Returns the new filesystem and the result. -/
def convert_to_parquet_and_store (fs : FileSystem) (df : DataFrame)
    (parquet_name : Option String) (assets_dir : Option String)
    (io : ExcOutcome) : FileSystem × Except String String :=
  let dir := match assets_dir with | none => defaultAssetsDir | some a => a
  let fs1 := mkdirp fs dir
  match parquet_name with
  | none => (fs1, .error "parquet_name must be provided to store the asset file")
  | some n =>
    let outPath := dir ++ "/" ++ n
    match io with
    | .raised =>
      (fs1, .error "Failed to write parquet. Install pyarrow or fastparquet and retry.")
    | .ok => (writeParquet fs1 outPath df, .ok outPath)

/-- A small non-empty DataFrame. -/
def sampleDF : DataFrame := ⟨[.str "Ticker"], [[.str "AAPL"]]⟩

/-! ## Theorems -/

theorem encodeDF_isEmpty_false (d : DataFrame) : (encodeDF d).isEmpty = false := by
  simp [encodeDF, encodeListWith]

/-- C1: saving a non-empty valid DataFrame under a key and loading that
key back (no eviction or corruption in between, and the encoding write
completing) returns exactly the saved DataFrame — so in particular one
equal in column set and row values. -/
theorem save_load_roundtrip (c : CacheMap) (key : String) (d : DataFrame)
    (h : d.isEmpty = false) :
    load_df_from_cache (save_df_to_cache c key (.frame d) .ok) key = some d := by
  simp [save_df_to_cache, h, load_df_from_cache, CacheMap.set, CacheMap.get,
    encodeDF_isEmpty_false, decodeDF_encodeDF]

theorem save_load_roundtrip_witness :
    sampleDF.isEmpty = false ∧
      load_df_from_cache
        (save_df_to_cache CacheMap.empty "YahooFinance.parquet" (.frame sampleDF) .ok)
        "YahooFinance.parquet" = some sampleDF :=
  ⟨by decide,
    save_load_roundtrip CacheMap.empty "YahooFinance.parquet" sampleDF (by decide)⟩

/-- C3: `save_df_to_cache` never raises.  A non-DataFrame argument or an
empty DataFrame is a no-op leaving the cache unchanged; an encoding or
storage exception is swallowed leaving the cache unchanged; and in every
case the call returns normally, either leaving the cache unchanged or
storing the encoded bytes under the key. -/
theorem save_df_never_raises (c : CacheMap) (key : String) (df : DfArg)
    (io : ExcOutcome) :
    (df = DfArg.notFrame → save_df_to_cache c key df io = c) ∧
    (∀ d, df = DfArg.frame d → d.isEmpty = true →
      save_df_to_cache c key df io = c) ∧
    (∀ d, df = DfArg.frame d → io = ExcOutcome.raised →
      save_df_to_cache c key df io = c) ∧
    (save_df_to_cache c key df io = c ∨
      ∃ d, df = DfArg.frame d ∧
        save_df_to_cache c key df io = c.set key (.bytes (encodeDF d))) := by
  refine ⟨?_, ?_, ?_, ?_⟩
  · rintro rfl; rfl
  · rintro d rfl hd; simp [save_df_to_cache, hd]
  · rintro d rfl rfl
    cases hd : d.isEmpty <;> simp [save_df_to_cache, hd]
  · cases df with
    | notFrame => exact Or.inl rfl
    | frame d =>
      cases hd : d.isEmpty with
      | true => exact Or.inl (by simp [save_df_to_cache, hd])
      | false =>
        cases io with
        | raised => exact Or.inl (by simp [save_df_to_cache, hd])
        | ok => exact Or.inr ⟨d, rfl, by simp [save_df_to_cache, hd]⟩

theorem save_df_never_raises_witness :
    save_df_to_cache CacheMap.empty "k" DfArg.notFrame ExcOutcome.raised
      = CacheMap.empty :=
  (save_df_never_raises CacheMap.empty "k" DfArg.notFrame ExcOutcome.raised).1 rfl

/-- C4: `load_df_from_cache` never raises: it returns `none` on a cache
miss, on a stored value that is not a byte sequence, and on stored bytes
that fail to decode as a DataFrame; when the stored bytes decode
successfully it returns the decoded DataFrame. -/
theorem load_df_never_raises (c : CacheMap) (key : String) :
    (c.get key = none → load_df_from_cache c key = none) ∧
    (c.get key = some CacheValue.nonBytes → load_df_from_cache c key = none) ∧
    (∀ b, c.get key = some (CacheValue.bytes b) → decodeDF b = none →
      load_df_from_cache c key = none) ∧
    (∀ b d, c.get key = some (CacheValue.bytes b) → decodeDF b = some d →
      load_df_from_cache c key = some d) := by
  refine ⟨?_, ?_, ?_, ?_⟩
  · intro hg; simp [load_df_from_cache, hg]
  · intro hg; simp [load_df_from_cache, hg]
  · intro b hg hdec
    cases hb : b.isEmpty <;> simp [load_df_from_cache, hg, hb, hdec]
  · intro b d hg hdec
    have hb : b.isEmpty = false := by
      cases hb : b.isEmpty with
      | false => rfl
      | true =>
        rw [List.isEmpty_iff.mp hb, decodeDF_nil] at hdec
        exact absurd hdec (by simp)
    simp [load_df_from_cache, hg, hb, hdec]

theorem load_df_never_raises_witness :
    CacheMap.empty.get "k" = none ∧ load_df_from_cache CacheMap.empty "k" = none :=
  ⟨rfl, (load_df_never_raises CacheMap.empty "k").1 rfl⟩

/-- C2: the first call to `get_diskcache` (global `_cache` still unset)
constructs the cache with size limit 10^9 bytes (~1 GB), eviction policy
least-recently-used, 7 days (in seconds) as the time-to-live setting,
and a shard limit of 1000, and installs it as the process-wide
instance. -/
theorem get_diskcache_first_call_config (s : CacheGlobalState)
    (h : s.cache = none) :
    ((get_diskcache s).2).settings.size_limit = 10 ^ 9 ∧
    ((get_diskcache s).2).settings.eviction_policy = "least-recently-used" ∧
    ((get_diskcache s).2).settings.timeout = 7 * 24 * 60 * 60 ∧
    ((get_diskcache s).2).settings.shard_limit = 1000 ∧
    (get_diskcache s).1.cache = some (get_diskcache s).2 := by
  simp [get_diskcache, h, newDiskCache]

theorem get_diskcache_first_call_config_witness :
    (CacheGlobalState.mk none 0).cache = none ∧
      ((get_diskcache (CacheGlobalState.mk none 0)).2).settings.size_limit = 10 ^ 9 :=
  ⟨rfl, (get_diskcache_first_call_config (CacheGlobalState.mk none 0) rfl).1⟩

/-- C9: the cache accessor is idempotent: after any first call, calling
`get_diskcache` again returns the identical instance and leaves the
global state (including the count of constructor runs) unchanged. -/
theorem get_diskcache_idempotent (s : CacheGlobalState) :
    get_diskcache (get_diskcache s).1 = ((get_diskcache s).1, (get_diskcache s).2) := by
  cases hc : s.cache <;> simp [get_diskcache, hc]

/-- The `SymbolInfo` built from a record with a non-null ticker. -/
def mkRowSymbol (cols : List Cell) (row : List Cell) : SymbolInfo :=
  { symbol := (recGet cols row (.str "Ticker")).toStr
    name := recGet cols row (.str "Name")
    exchange := recGet cols row (.str "Exchange")
    category_name := recGet cols row (.str "Category Name")
    country := recGet cols row (.str "Country")
    currency := recGet cols row (.str "Currency") }

theorem rowToSymbolInfo_eq (cols row : List Cell) :
    rowToSymbolInfo cols row =
      if recGet cols row (.str "Ticker") = Cell.null then none
      else some (mkRowSymbol cols row) := by
  cases h : recGet cols row (.str "Ticker") <;>
    simp [rowToSymbolInfo, mkRowSymbol, h, Cell.toStr]

theorem filterMap_rowToSymbolInfo (cols : List Cell) (rows : List (List Cell)) :
    rows.filterMap (rowToSymbolInfo cols) =
      (rows.filter fun r => !(recGet cols r (.str "Ticker") == Cell.null)).map
        (mkRowSymbol cols) := by
  induction rows with
  | nil => rfl
  | cons r rs ih =>
    by_cases h : recGet cols r (.str "Ticker") = Cell.null <;>
      simp [List.filterMap_cons, List.filter_cons, rowToSymbolInfo_eq, h, ih]

/-- The asset table of the spec's example: rows
`[{Ticker: "AAPL", Name: "Apple"}, {Ticker: None}]`. -/
def appleDF : DataFrame :=
  ⟨[.str "Ticker", .str "Name"], [[.str "AAPL", .str "Apple"], [.null, .null]]⟩

/-- C5: with a `Ticker` column present, `get_supported_symbols` returns,
in source row order, one `SymbolInfo` per row whose ticker is non-null
(null-ticker rows are skipped), built from the row's record via stringified
ticker and optional-field lookups; and on the spec's example table it
returns exactly one `SymbolInfo` with symbol `"AAPL"` and name `"Apple"`. -/
theorem get_supported_symbols_rows (df : DataFrame) (io : ExcOutcome)
    (h : df.columns.contains (Cell.str "Ticker") = true) :
    (∃ c, get_supported_symbols CacheMap.empty (some df) io =
      .ok ((df.rows.filter fun r => !(recGet df.columns r (.str "Ticker") == Cell.null)).map
        (mkRowSymbol df.columns), c)) ∧
    get_supported_symbols CacheMap.empty (some appleDF) ExcOutcome.ok =
      .ok ([{ symbol := "AAPL", name := .str "Apple", exchange := .null,
              category_name := .null, country := .null, currency := .null }],
        CacheMap.empty.set (providerName ++ ".parquet") (.bytes (encodeDF appleDF))) := by
  constructor
  · refine ⟨save_df_to_cache CacheMap.empty (providerName ++ ".parquet") (.frame df) io, ?_⟩
    have hload : load_df_from_cache CacheMap.empty (providerName ++ ".parquet") = none := rfl
    have h' : Cell.str "Ticker" ∈ df.columns := by simpa using h
    simp [get_supported_symbols, hload, checkAndMap, requiredMissing, h',
      filterMap_rowToSymbolInfo]
  · rfl

theorem get_supported_symbols_rows_witness :
    appleDF.columns.contains (Cell.str "Ticker") = true ∧
    (∃ c, get_supported_symbols CacheMap.empty (some appleDF) ExcOutcome.ok =
      .ok ((appleDF.rows.filter fun r =>
          !(recGet appleDF.columns r (.str "Ticker") == Cell.null)).map
        (mkRowSymbol appleDF.columns), c)) :=
  ⟨by decide, (get_supported_symbols_rows appleDF ExcOutcome.ok (by decide)).1⟩

/-- C6: whichever way the source table was obtained (cache hit, or cache
miss plus asset file), a table without a `Ticker` column makes
`get_supported_symbols` raise the ValueError naming the missing column,
and a table with a `Ticker` column never raises it (the call returns a
symbol list). -/
theorem get_supported_symbols_ticker_validation (c : CacheMap)
    (asset : Option DataFrame) (io : ExcOutcome) (df : DataFrame)
    (hsrc : load_df_from_cache c (providerName ++ ".parquet") = some df ∨
      (load_df_from_cache c (providerName ++ ".parquet") = none ∧ asset = some df)) :
    (df.columns.contains (Cell.str "Ticker") = false →
      get_supported_symbols c asset io =
        .error (.valueError yahooParquetPath [.str "Ticker"])) ∧
    (df.columns.contains (Cell.str "Ticker") = true →
      ∃ out c2, get_supported_symbols c asset io = .ok (out, c2)) := by
  rcases hsrc with hload | ⟨hload, rfl⟩
  · constructor
    · intro h
      have h' : Cell.str "Ticker" ∉ df.columns := by simpa using h
      simp [get_supported_symbols, hload, checkAndMap, requiredMissing, h']
    · intro h
      have h' : Cell.str "Ticker" ∈ df.columns := by simpa using h
      refine ⟨df.rows.filterMap (rowToSymbolInfo df.columns), c, ?_⟩
      simp [get_supported_symbols, hload, checkAndMap, requiredMissing, h']
  · constructor
    · intro h
      have h' : Cell.str "Ticker" ∉ df.columns := by simpa using h
      simp [get_supported_symbols, hload, checkAndMap, requiredMissing, h']
    · intro h
      have h' : Cell.str "Ticker" ∈ df.columns := by simpa using h
      refine ⟨df.rows.filterMap (rowToSymbolInfo df.columns),
        save_df_to_cache c (providerName ++ ".parquet") (.frame df) io, ?_⟩
      simp [get_supported_symbols, hload, checkAndMap, requiredMissing, h']

theorem get_supported_symbols_ticker_validation_witness :
    (DataFrame.mk [Cell.str "Name"] []).columns.contains (Cell.str "Ticker") = false ∧
    get_supported_symbols CacheMap.empty (some (DataFrame.mk [Cell.str "Name"] []))
        ExcOutcome.ok =
      .error (.valueError yahooParquetPath [.str "Ticker"]) :=
  ⟨by decide,
    (get_supported_symbols_ticker_validation CacheMap.empty
      (some (DataFrame.mk [Cell.str "Name"] [])) ExcOutcome.ok
      (DataFrame.mk [Cell.str "Name"] []) (Or.inr ⟨rfl, rfl⟩)).1 (by decide)⟩

/-- C7: on a cache miss with no packaged asset file the call raises
FileNotFound; on a cache hit the asset file is never consulted — the
result does not depend on it at all. -/
theorem get_supported_symbols_asset_read (c : CacheMap) (io : ExcOutcome) :
    (load_df_from_cache c (providerName ++ ".parquet") = none →
      get_supported_symbols c none io = .error (.fileNotFound yahooParquetPath)) ∧
    (∀ df, load_df_from_cache c (providerName ++ ".parquet") = some df →
      ∀ a1 a2, get_supported_symbols c a1 io = get_supported_symbols c a2 io) := by
  constructor
  · intro h; simp [get_supported_symbols, h]
  · intro df h a1 a2; simp [get_supported_symbols, h]

theorem get_supported_symbols_asset_read_witness :
    load_df_from_cache CacheMap.empty (providerName ++ ".parquet") = none ∧
    get_supported_symbols CacheMap.empty none ExcOutcome.ok =
      .error (.fileNotFound yahooParquetPath) :=
  ⟨rfl, (get_supported_symbols_asset_read CacheMap.empty ExcOutcome.ok).1 rfl⟩

/-- C10: calling `convert_to_parquet_and_store` with `parquet_name =
None` always fails with the ValueError, but only after ensuring the
assets directory exists, so the failed call can still change the
filesystem (and does, starting from an empty filesystem). -/
theorem convert_validation_not_atomic (fs : FileSystem) (df : DataFrame)
    (adir : Option String) (io : ExcOutcome) :
    (convert_to_parquet_and_store fs df none adir io).2 =
      .error "parquet_name must be provided to store the asset file" ∧
    (convert_to_parquet_and_store fs df none adir io).1 =
      mkdirp fs (adir.getD defaultAssetsDir) ∧
    adir.getD defaultAssetsDir ∈ (convert_to_parquet_and_store fs df none adir io).1.dirs ∧
    (convert_to_parquet_and_store (FileSystem.mk [] []) df none adir io).1 ≠
      FileSystem.mk [] [] := by
  cases adir with
  | none =>
    refine ⟨rfl, rfl, ?_, ?_⟩
    · by_cases h : defaultAssetsDir ∈ fs.dirs <;>
        simp [convert_to_parquet_and_store, mkdirp, h, Option.getD]
    · simp [convert_to_parquet_and_store, mkdirp]
  | some a =>
    refine ⟨rfl, rfl, ?_, ?_⟩
    · by_cases h : a ∈ fs.dirs <;>
        simp [convert_to_parquet_and_store, mkdirp, h, Option.getD]
    · simp [convert_to_parquet_and_store, mkdirp]

theorem convert_validation_not_atomic_witness :
    (convert_to_parquet_and_store (FileSystem.mk [] []) sampleDF none none
        ExcOutcome.ok).2 =
      Except.error "parquet_name must be provided to store the asset file" :=
  (convert_validation_not_atomic (FileSystem.mk [] []) sampleDF none ExcOutcome.ok).1

end TornoTradeCraft
